import Mathlib

/-!
Shallow embedding of the recipe curation engine of the `gdmealplanner`
repository (`scripts/scraper/`): the quality validator, the recipe
enricher, the duplicate detector, the diversity tracker, and the
orchestrating pipeline `EnhancedRecipeScraper.process_recipe`.

Conventions of the embedding:
* Python strings are Lean `String`s, but every string operation is
  reimplemented structurally on `List Char` so that the kernel can
  evaluate it (the core library versions use well-founded recursion).
* Python numbers are `ℚ` (the source uses exact small int/float
  arithmetic); minutes and counters are `ℕ`.
* Python dicts used as counters (`defaultdict(int)`) are
  insertion-ordered association lists, matching dict iteration order.
* Calls into external libraries (`fuzzywuzzy` string ratios, numpy's
  floating-point square root) are parameters of the functions that use
  them; the repository's own code is translated literally.
* Wall-clock metadata (`datetime.now()` timestamps), logging, statistics
  counters of the validator/enricher objects, file persistence and image
  processing are not modelled: no claim mentions them.
-/

set_option maxRecDepth 40000

attribute [local semireducible] Rat.add Rat.mul Rat.inv Rat.sub

/-! ## String primitives (Python `str` semantics, kernel-computable) -/

/-- Python `s.lower()` (ASCII case folding, as used by the source). -/
def lowerStr (s : String) : String := ⟨s.data.map Char.toLower⟩

/-- Python `s.strip()`: drop whitespace from both ends. -/
def pyStrip (s : String) : String :=
  ⟨((s.data.dropWhile Char.isWhitespace).reverse.dropWhile Char.isWhitespace).reverse⟩

/-- Helper for `pySplit`: split a character list on whitespace runs. -/
def splitWsAux : List Char → List Char → List String
  | [], acc => if acc.isEmpty then [] else [⟨acc.reverse⟩]
  | c :: rest, acc =>
    if c.isWhitespace then
      if acc.isEmpty then splitWsAux rest [] else ⟨acc.reverse⟩ :: splitWsAux rest []
    else splitWsAux rest (c :: acc)

/-- Python `s.split()` with no argument: split on whitespace, no empty tokens. -/
def pySplit (s : String) : List String := splitWsAux s.data []

/-- Substring test on character lists; `containsSub hay pat` is Python `pat in hay`. -/
def containsSub : List Char → List Char → Bool
  | [], pat => pat.isEmpty
  | c :: t, pat => pat.isPrefixOf (c :: t) || containsSub t pat

/-- Python `pat in hay` for strings. -/
def strContains (hay pat : String) : Bool := containsSub hay.data pat.data

/-- Python `sep.join(parts)`. -/
def joinWith (sep : String) : List String → String
  | [] => ""
  | [x] => x
  | x :: xs => x ++ sep ++ joinWith sep xs

/-- Python `s.split(c)[0]`: the prefix of `s` before the first occurrence of `c`. -/
def beforeChar (s : String) (c : Char) : String := ⟨s.data.takeWhile (fun d => d ≠ c)⟩

/-- Strict lexicographic comparison on code points (Python `<` on `str`). -/
def clLt : List Char → List Char → Bool
  | [], [] => false
  | [], _ :: _ => true
  | _ :: _, [] => false
  | a :: as, b :: bs =>
    if a.val < b.val then true else if b.val < a.val then false else clLt as bs

/-- Python `a < b` on strings. -/
def strLtB (a b : String) : Bool := clLt a.data b.data

/-- Stable ascending insertion for `sortedStr` (Python `sorted`). -/
def insAscStr (a : String) : List String → List String
  | [] => [a]
  | b :: t => if strLtB a b then a :: b :: t else b :: insAscStr a t

/-- Python `sorted(xs)` on strings (stable, ascending). -/
def sortedStr (xs : List String) : List String := xs.foldl (fun acc a => insAscStr a acc) []

/-- Suffix of `hay` after the first occurrence of `pat`, if `pat` occurs. -/
def dropAfterFirst : List Char → List Char → Option (List Char)
  | [], pat => if pat.isEmpty then some [] else none
  | c :: t, pat =>
    if pat.isPrefixOf (c :: t) then some ((c :: t).drop pat.length) else dropAfterFirst t pat

/-- Python `re.search(p1 + ".*" + p2, txt) is not None`. -/
def regexSeq (txt p1 p2 : String) : Bool :=
  match dropAfterFirst txt.data p1.data with
  | some rest => containsSub rest p2.data
  | none => false

/-! ## Data model

A candidate recipe record, following §3 of the module docstrings: fields
that the source reads with a `dict.get` default are `Option`s, so that a
missing key is representable (different call sites use different
defaults, e.g. `nutrition.get('carbs', 999)` in the keto check). -/

structure Ingredient where
  name : String := ""
  amount : ℚ := 0
  unitName : String := ""
deriving DecidableEq

/-- The nutrition mapping; every numeric field may be absent. -/
structure NutritionMap where
  calories : Option ℚ := none
  carbs : Option ℚ := none
  fiber : Option ℚ := none
  sugar : Option ℚ := none
  protein : Option ℚ := none
  fat : Option ℚ := none
  saturatedFat : Option ℚ := none
  sodium : Option ℚ := none
deriving DecidableEq

/-- A nutrition mapping with every key absent (Python `{}`). -/
def NutritionMap.empty : NutritionMap := {}

/-- Whether the mapping has no keys: Python falsiness of the `nutrition` dict. -/
def NutritionMap.isEmptyMap (n : NutritionMap) : Bool :=
  n.calories.isNone && n.carbs.isNone && n.fiber.isNone && n.sugar.isNone &&
  n.protein.isNone && n.fat.isNone && n.saturatedFat.isNone && n.sodium.isNone

structure Recipe where
  title : String := ""
  description : String := ""
  ingredients : List Ingredient := []
  instructions : List String := []
  nutrition : NutritionMap := {}
  prepTime : ℕ := 0
  cookTime : ℕ := 0
  servings : ℕ := 4
  tags : Option (List String) := none
  cuisine : Option String := none
  seasonalTags : List String := []
  trimesterSuitability : List String := []
  batchFriendly : Bool := false
  freezerFriendly : Bool := false
  shoppingList : List (String × List Ingredient) := []
  cookingMethods : List String := []
  timeCategory : Option String := none
  sourceSite : Option String := none
  potentialDuplicate : Bool := false
  duplicateOf : Option String := none
  surplus : Bool := false
  surplusReasons : List String := []
deriving DecidableEq

/-- Python `recipe.get('tags', [])`. -/
def Recipe.tagsD (r : Recipe) : List String := r.tags.getD []

/-- `' '.join(name for each ingredient)` lower-cased, as in
`RecipeEnricher._get_ingredients_text` and the GI estimator. -/
def ingredientsText (ings : List Ingredient) : String :=
  lowerStr (joinWith " " (ings.map (fun ing => ing.name)))

/-- `' '.join(instructions).lower()`. -/
def instructionsText (instrs : List String) : String := lowerStr (joinWith " " instrs)

/-! ## Quality Validator (`quality_validator.py`) -/

/-- `GD_GUIDELINES` category bounds. -/
structure Guidelines where
  min_carbs : ℚ
  max_carbs : ℚ
  min_fiber : ℚ
  min_protein : ℚ
deriving DecidableEq

def snacksGuidelines : Guidelines := ⟨15, 30, 3, 5⟩
def mealsGuidelines : Guidelines := ⟨30, 45, 5, 15⟩

/-- `GI_DATABASE['low']`. -/
def GI_low : List String :=
  ["quinoa", "steel cut oats", "rolled oats", "barley", "bulgur",
   "sweet potato", "yam", "most vegetables", "beans", "lentils",
   "chickpeas", "black beans", "kidney beans", "whole grain bread",
   "whole wheat pasta", "brown rice", "wild rice", "nuts", "seeds",
   "greek yogurt", "plain yogurt", "milk", "cheese", "eggs",
   "chicken", "fish", "turkey", "lean beef", "tofu", "tempeh",
   "apples", "pears", "berries", "citrus", "stone fruits"]

/-- `GI_DATABASE['medium']`. -/
def GI_medium : List String :=
  ["whole wheat bread", "pita bread", "couscous", "basmati rice",
   "sweet corn", "raisins", "bananas", "grapes", "mango",
   "whole grain crackers", "popcorn", "honey", "maple syrup"]

/-- `GI_DATABASE['high']`. -/
def GI_high : List String :=
  ["white bread", "white rice", "instant rice", "rice cakes",
   "corn flakes", "instant oatmeal", "white potato", "french fries",
   "pretzels", "crackers", "watermelon", "white pasta", "bagels",
   "sugar", "candy", "soda", "juice", "sports drinks"]

/-- `COMMON_INGREDIENTS`, flattened in category order as
`RecipeQualityValidator._validate_ingredients` does. -/
def allCommonIngredients : List String :=
  ["chicken", "turkey", "beef", "pork", "fish", "salmon", "tuna",
   "eggs", "tofu", "tempeh", "beans", "lentils", "chickpeas",
   "greek yogurt", "cottage cheese", "nuts", "seeds"] ++
  ["quinoa", "brown rice", "wild rice", "oats", "barley", "bulgur",
   "whole wheat flour", "whole grain bread", "whole wheat pasta"] ++
  ["spinach", "kale", "lettuce", "broccoli", "cauliflower", "carrots",
   "bell peppers", "tomatoes", "cucumber", "zucchini", "onions",
   "garlic", "mushrooms", "green beans", "asparagus", "brussels sprouts"] ++
  ["olive oil", "avocado", "nuts", "seeds", "nut butter", "tahini",
   "coconut oil", "flaxseed", "chia seeds", "salmon", "sardines"] ++
  ["salt", "pepper", "herbs", "spices", "lemon", "lime", "vinegar",
   "mustard", "hot sauce", "soy sauce", "ginger", "turmeric"]

/-- The allergen keyword table of `_check_allergens`, in dict order. -/
def commonAllergens : List (String × List String) :=
  [("dairy", ["milk", "cheese", "yogurt", "butter", "cream", "whey"]),
   ("eggs", ["egg", "eggs"]),
   ("nuts", ["almond", "walnut", "pecan", "cashew", "pistachio", "nut"]),
   ("peanuts", ["peanut"]),
   ("soy", ["soy", "tofu", "tempeh", "edamame"]),
   ("wheat", ["wheat", "flour", "bread", "pasta"]),
   ("shellfish", ["shrimp", "crab", "lobster", "scallop"]),
   ("fish", ["salmon", "tuna", "cod", "tilapia", "fish"])]

/-- Blocking validation errors; each constructor is one `errors.append`
site of the validator, carrying the numbers its f-string interpolates. -/
inductive VErr
  | missingField (f : String)
  | tooFewIngredients
  | noInstructions
  | carbsTooLow (c mn : ℚ)
  | carbsTooHigh (c mx : ℚ)
  | fiberTooLow (f mn : ℚ)
  | giHigh
deriving DecidableEq

/-- Non-blocking warnings; each constructor is one `warnings.append` site. -/
inductive VWarn
  | proteinLow (p mn : ℚ)
  | highSugar (s : ℚ)
  | lowFiberRatio
  | highSatFat (s : ℚ)
  | highSodium (s : ℚ)
  | timeExceeds (t : ℕ)
  | noIngredientsFound
  | manyUncommon (names : List String)
  | giUnknown
  | allergens (found : List String)
deriving DecidableEq

/-- `RecipeQualityValidator._determine_meal_type`: snack/appetizer tags win,
then meal tags, then the calorie rule `0 < calories <= 200`. -/
def determineMealTypeV (r : Recipe) : String :=
  let calories := r.nutrition.calories.getD 0
  let tags := r.tagsD
  if "snack" ∈ tags ∨ "appetizer" ∈ tags then "snacks"
  else if "breakfast" ∈ tags ∨ "lunch" ∈ tags ∨ "dinner" ∈ tags ∨ "main" ∈ tags then "meals"
  else if 0 < calories ∧ calories ≤ 200 then "snacks"
  else "meals"

/-- `_validate_required_fields`: empty title/ingredients/instructions/nutrition
are blocking, plus the minimum-content checks. -/
def validateRequiredFields (r : Recipe) : List VErr :=
  (if r.title = "" then [VErr.missingField "title"] else []) ++
  (if r.ingredients = [] then [VErr.missingField "ingredients"] else []) ++
  (if r.instructions = [] then [VErr.missingField "instructions"] else []) ++
  (if r.nutrition.isEmptyMap then [VErr.missingField "nutrition"] else []) ++
  (if r.ingredients ≠ [] ∧ r.ingredients.length < 3 then [VErr.tooFewIngredients] else []) ++
  (if r.instructions ≠ [] ∧ r.instructions.length < 1 then [VErr.noInstructions] else [])

/-- `_validate_nutrition`, split into the blocking errors and the warnings. -/
def validateNutrition (n : NutritionMap) (g : Guidelines) : List VErr × List VWarn :=
  let carbs := n.carbs.getD 0
  let fiber := n.fiber.getD 0
  let protein := n.protein.getD 0
  let sugar := n.sugar.getD 0
  let total_fat := n.fat.getD 0
  let sat_fat := n.saturatedFat.getD 0
  let sodium := n.sodium.getD 0
  let errs :=
    (if carbs < g.min_carbs then [VErr.carbsTooLow carbs g.min_carbs]
     else if carbs > g.max_carbs then [VErr.carbsTooHigh carbs g.max_carbs] else []) ++
    (if fiber < g.min_fiber then [VErr.fiberTooLow fiber g.min_fiber] else [])
  let warns :=
    (if protein < g.min_protein then [VWarn.proteinLow protein g.min_protein] else []) ++
    (if 0 < carbs ∧ sugar / carbs > 2/5 then [VWarn.highSugar sugar] else []) ++
    (if 0 < carbs ∧ fiber / carbs < 1/10 then [VWarn.lowFiberRatio] else []) ++
    (if 0 < total_fat ∧ 0 < sat_fat ∧ sat_fat / total_fat > 3/10 then
       [VWarn.highSatFat sat_fat] else []) ++
    (if sodium > 600 then [VWarn.highSodium sodium] else [])
  (errs, warns)

/-- `_validate_ingredients` (warnings only). -/
def validateIngredients (ings : List Ingredient) : List VWarn :=
  if ings = [] then [VWarn.noIngredientsFound]
  else
    let names := ings.map (fun ing => lowerStr ing.name)
    let uncommon := names.filter (fun nm =>
      !(allCommonIngredients.any (fun common => strContains nm common)) &&
      decide (3 < nm.data.length))
    if 3 < uncommon.length then [VWarn.manyUncommon (uncommon.take 3)] else []

/-- `_estimate_glycemic_index`. -/
def estimateGI (r : Recipe) : String :=
  if r.ingredients = [] then "unknown"
  else
    let ingredient_text := lowerStr (joinWith " " (r.ingredients.map (fun ing => ing.name)))
    let low0 := (GI_low.filter (fun item => strContains ingredient_text item)).length
    let medium_count := (GI_medium.filter (fun item => strContains ingredient_text item)).length
    let high0 := (GI_high.filter (fun item => strContains ingredient_text item)).length
    let instr := instructionsText r.instructions
    let low_count := low0 + (if strContains instr "raw" || strContains instr "fresh" then 1 else 0)
    let high_count :=
      high0 + (if strContains instr "deep fry" || strContains instr "fried" then 1 else 0)
    let total := low_count + medium_count + high_count
    if total = 0 then "unknown"
    else
      let score : ℚ := ((low_count * 1 + medium_count * 2 + high_count * 3 : ℕ) : ℚ) / (total : ℚ)
      if score ≤ 3/2 then "low" else if score ≤ 5/2 then "medium" else "high"

/-- `_check_allergens`: allergen groups whose keyword hits the ingredient text. -/
def checkAllergens (ings : List Ingredient) : List String :=
  let ingredient_text := lowerStr (joinWith " " (ings.map (fun ing => ing.name)))
  (commonAllergens.filter (fun p => p.2.any (fun kw => strContains ingredient_text kw))).map
    (fun p => p.1)

/-- `RecipeQualityValidator.validate_recipe`: `(is_valid, errors, warnings)`.
The object-level `validation_stats` bookkeeping is not modelled. -/
def validateRecipe (r : Recipe) : Bool × List VErr × List VWarn :=
  let meal_type := determineMealTypeV r
  let guidelines := if meal_type = "snacks" then snacksGuidelines else mealsGuidelines
  let fieldErrs := validateRequiredFields r
  let nut := validateNutrition r.nutrition guidelines
  let timeWarns :=
    if 45 < r.prepTime + r.cookTime then [VWarn.timeExceeds (r.prepTime + r.cookTime)] else []
  let ingWarns := validateIngredients r.ingredients
  let gi := estimateGI r
  let giErrs := if gi = "high" then [VErr.giHigh] else []
  let giWarns := if gi = "unknown" then [VWarn.giUnknown] else []
  let allergens := checkAllergens r.ingredients
  let allergenWarns := if allergens ≠ [] then [VWarn.allergens allergens] else []
  let errors := fieldErrs ++ nut.1 ++ giErrs
  let warnings := nut.2 ++ timeWarns ++ ingWarns ++ giWarns ++ allergenWarns
  (errors.length = 0, errors, warnings)

/-- Modelled from the spec: the glycemic-index estimator exactly as claim C5
words it — count vocabulary matches in the ingredient text, apply the two
instruction bonuses, return `unknown` iff there are no matches at all, and
otherwise bucket the weighted average.  It has no special case for an empty
ingredient list; `estimateGI` (from the source) does. -/
def giEstimateSpec (r : Recipe) : String :=
  let ingredient_text := lowerStr (joinWith " " (r.ingredients.map (fun ing => ing.name)))
  let low0 := (GI_low.filter (fun item => strContains ingredient_text item)).length
  let medium_count := (GI_medium.filter (fun item => strContains ingredient_text item)).length
  let high0 := (GI_high.filter (fun item => strContains ingredient_text item)).length
  let instr := instructionsText r.instructions
  let low_count := low0 + (if strContains instr "raw" || strContains instr "fresh" then 1 else 0)
  let high_count :=
    high0 + (if strContains instr "deep fry" || strContains instr "fried" then 1 else 0)
  let total := low_count + medium_count + high_count
  if total = 0 then "unknown"
  else
    let score : ℚ := ((low_count * 1 + medium_count * 2 + high_count * 3 : ℕ) : ℚ) / (total : ℚ)
    if score ≤ 3/2 then "low" else if score ≤ 5/2 then "medium" else "high"

/-! ## Recipe Enricher (`recipe_enrichment.py`) -/

/-- `SEASONAL_INGREDIENTS`, in dict order. -/
def SEASONAL_INGREDIENTS : List (String × List String) :=
  [("spring",
    ["asparagus", "artichoke", "peas", "spring onions", "radish",
     "strawberries", "rhubarb", "spinach", "lettuce", "arugula",
     "fennel", "leeks", "mint", "parsley", "dill"]),
   ("summer",
    ["tomatoes", "corn", "zucchini", "cucumber", "bell peppers",
     "eggplant", "berries", "peaches", "watermelon", "melon",
     "basil", "cilantro", "green beans", "okra", "summer squash"]),
   ("fall",
    ["pumpkin", "butternut squash", "acorn squash", "sweet potato",
     "apples", "pears", "cranberries", "brussels sprouts", "cauliflower",
     "kale", "swiss chard", "pomegranate", "persimmon", "figs"]),
   ("winter",
    ["cabbage", "winter squash", "root vegetables", "carrots", "parsnips",
     "turnips", "beets", "citrus", "oranges", "grapefruit", "lemons",
     "collard greens", "endive", "radicchio", "dates"])]

/-- `SEASONAL_INGREDIENTS['year_round']`. -/
def yearRoundIngredients : List String :=
  ["onions", "garlic", "potatoes", "mushrooms", "broccoli",
   "carrots", "celery", "bananas", "avocados", "nuts", "seeds"]

/-- `CUISINE_PATTERNS`, in dict order: `(cuisine, ingredients, dishes)`. -/
def CUISINE_PATTERNS : List (String × List String × List String) :=
  [("mediterranean",
    (["olive oil", "feta", "olives", "oregano", "basil",
      "tomatoes", "garlic", "lemon", "yogurt", "chickpeas",
      "tahini", "hummus", "pita", "couscous", "bulgur"],
     ["greek salad", "tzatziki", "tabbouleh", "shakshuka", "falafel"])),
   ("asian",
    (["soy sauce", "ginger", "sesame", "rice vinegar", "miso",
      "tofu", "bok choy", "noodles", "rice", "sriracha",
      "fish sauce", "coconut milk", "curry", "lemongrass"],
     ["stir fry", "pad thai", "pho", "curry", "sushi", "teriyaki"])),
   ("latin",
    (["cilantro", "lime", "jalapeno", "chili", "cumin",
      "black beans", "corn", "avocado", "salsa", "tortilla",
      "queso", "chorizo", "plantain", "mole", "adobo"],
     ["tacos", "enchiladas", "burrito", "quesadilla", "ceviche"])),
   ("indian",
    (["curry", "turmeric", "cumin", "coriander", "garam masala",
      "cardamom", "naan", "basmati rice", "dal", "paneer",
      "ghee", "chutney", "tandoori", "masala"],
     ["curry", "biryani", "tikka masala", "samosa", "dosa"])),
   ("italian",
    (["pasta", "parmesan", "mozzarella", "basil", "oregano",
      "marinara", "pesto", "risotto", "prosciutto", "balsamic",
      "ricotta", "polenta", "gnocchi"],
     ["pasta", "pizza", "risotto", "lasagna", "caprese"])),
   ("american",
    (["bbq sauce", "ranch", "cheddar", "bacon", "maple syrup",
      "cornbread", "coleslaw", "buffalo sauce"],
     ["burger", "sandwich", "mac and cheese", "chili", "meatloaf"])),
   ("middle_eastern",
    (["tahini", "sumac", "zaatar", "pomegranate", "dates",
      "pistachios", "rose water", "harissa", "preserved lemon"],
     ["shawarma", "kebab", "baba ganoush", "fattoush"]))]

/-- `TRIMESTER_CONSIDERATIONS`, in dict order: `(name, avoid, beneficial, tags)`. -/
def TRIMESTER_CONSIDERATIONS : List (String × List String × List String × List String) :=
  [("first_trimester",
    (["raw fish", "high mercury fish", "excessive caffeine"],
     (["ginger", "bland foods", "small portions", "crackers",
       "citrus", "vitamin b6 foods"],
      ["morning-sickness-friendly", "gentle-stomach", "small-portions"]))),
   ("second_trimester",
    (["high mercury fish", "raw eggs", "unpasteurized cheese"],
     (["iron rich", "calcium rich", "protein", "omega-3",
       "whole grains", "variety"],
      ["energy-boost", "nutrient-dense", "balanced"]))),
   ("third_trimester",
    (["heavy meals", "spicy foods", "gas-producing foods"],
     (["small frequent meals", "fiber", "hydrating foods",
       "easy to digest"],
      ["easy-digest", "heartburn-friendly", "light-meals"])))]

def BATCH_FRIENDLY_INDICATORS : List String :=
  ["casserole", "soup", "stew", "chili", "curry", "lasagna",
   "meatballs", "burrito", "enchilada", "sauce", "marinade"]

def FREEZER_FRIENDLY_INDICATORS : List String :=
  ["freeze", "frozen", "make ahead", "batch", "meal prep",
   "freezer friendly", "store frozen"]

/-- `_classify_seasonal`: seasons with at least 2 keyword hits (in dict
order), falling back to `year-round` when 3 year-round keywords match. -/
def classifySeasonal (ingredients_text : String) : List String :=
  let seasons := (SEASONAL_INGREDIENTS.filter (fun p =>
    2 ≤ (p.2.filter (fun ing => strContains ingredients_text ing)).length)).map (fun p => p.1)
  if seasons = [] then
    if 3 ≤ (yearRoundIngredients.filter (fun ing => strContains ingredients_text ing)).length
    then ["year-round"] else []
  else seasons

/-- The running maximum of `Counter.most_common(1)`: keep the first entry
with the maximal score (ties break by insertion order). -/
def pickBest (acc : Option (String × ℕ)) (p : String × ℕ) : Option (String × ℕ) :=
  match acc with
  | none => some p
  | some q => if q.2 < p.2 then some p else some q

/-- `_classify_cuisine`: 1 point per ingredient keyword, 3 per dish name,
highest-scoring cuisine if its score is at least 3.  `Counter.most_common`
breaks ties by insertion order, which is the pattern-table order, so the
fold keeps the first cuisine with the maximal score. -/
def classifyCuisine (ingredients_text title description : String) : Option String :=
  let combined := ingredients_text ++ " " ++ title ++ " " ++ description
  let scores := CUISINE_PATTERNS.map (fun p =>
    (p.1, (p.2.1.filter (fun ing => strContains combined ing)).length +
          3 * (p.2.2.filter (fun dish => strContains combined dish)).length))
  let best := scores.foldl pickBest none
  match best with
  | some q => if 3 ≤ q.2 then some q.1 else none
  | none => none

/-- `_assess_trimester_suitability`: `(suitable trimesters, tags)`. -/
def assessTrimester (ingredients_text : String) : List String × List String :=
  let qualifying := TRIMESTER_CONSIDERATIONS.filter (fun t =>
    !(t.2.1.any (fun av => strContains ingredients_text av)) &&
    decide (2 ≤ (t.2.2.1.filter (fun b => strContains ingredients_text b)).length))
  let suitable := qualifying.map (fun t => t.1)
  let tags := (qualifying.map (fun t => t.2.2.2.take 1)).flatten
  let tags := if suitable.length = 3 then ["pregnancy-friendly"] else tags
  (suitable, tags.dedup)

/-- `_is_batch_friendly`. -/
def isBatchFriendly (title instructions : String) : Bool :=
  let combined := title ++ " " ++ instructions
  BATCH_FRIENDLY_INDICATORS.any (fun ind => strContains combined ind) ||
  (regexSeq combined "double" "recipe" || regexSeq combined "make" "batch" ||
   strContains combined "serves 8" || strContains combined "serves 10" ||
   strContains combined "serves 12" || strContains combined "large batch")

/-- `_is_freezer_friendly`. -/
def isFreezerFriendly (title instructions description : String) : Bool :=
  let combined := title ++ " " ++ instructions ++ " " ++ description
  FREEZER_FRIENDLY_INDICATORS.any (fun ind => strContains combined ind)

def proteinKeywords : List String :=
  ["chicken", "beef", "pork", "fish", "tofu", "beans", "eggs"]
def produceKeywords : List String := ["vegetable", "fruit"] ++ yearRoundIngredients
def grainKeywordsShop : List String := ["rice", "pasta", "bread", "flour", "oats", "quinoa"]
def dairyKeywordsShop : List String := ["milk", "cheese", "yogurt", "butter", "cream"]
def pantryKeywords : List String := ["oil", "vinegar", "sauce", "spice"]

/-- The first-matching shopping category of `_generate_shopping_list`. -/
def shoppingCategory (ing : Ingredient) : String :=
  let nm := lowerStr ing.name
  if proteinKeywords.any (fun kw => strContains nm kw) then "proteins"
  else if produceKeywords.any (fun kw => strContains nm kw) then "produce"
  else if grainKeywordsShop.any (fun kw => strContains nm kw) then "grains"
  else if dairyKeywordsShop.any (fun kw => strContains nm kw) then "dairy"
  else if pantryKeywords.any (fun kw => strContains nm kw) then "pantry"
  else "other"

/-- `_generate_shopping_list`: fixed category order, empty categories omitted. -/
def generateShoppingList (ings : List Ingredient) : List (String × List Ingredient) :=
  (["proteins", "produce", "grains", "dairy", "pantry", "other"].map (fun cat =>
    (cat, ings.filter (fun ing => shoppingCategory ing = cat)))).filter
    (fun p => p.2 ≠ [])

/-- `cooking_verbs` of `_extract_cooking_methods`, in dict order. -/
def cookingVerbs : List (String × String) :=
  [("bake", "baking"), ("roast", "roasting"), ("grill", "grilling"),
   ("saute", "sauteing"), ("steam", "steaming"), ("boil", "boiling"),
   ("simmer", "simmering"), ("stir fry", "stir-frying"),
   ("slow cook", "slow-cooking"), ("pressure cook", "pressure-cooking"),
   ("air fry", "air-frying")]

/-- `_extract_cooking_methods`: at most 3, in vocabulary order. -/
def extractCookingMethods (instructions : String) : List String :=
  ((cookingVerbs.filter (fun p => strContains instructions p.1)).map (fun p => p.2)).take 3

/-- `_categorize_prep_time`. -/
def categorizePrepTime (total_time : ℕ) : Option String :=
  if total_time ≤ 15 then some "15-min-meals"
  else if total_time ≤ 30 then some "30-min-meals"
  else if total_time ≤ 45 then some "quick-meals"
  else if 120 ≤ total_time then some "slow-cooking"
  else none

def paleoGrainKeywords : List String := ["wheat", "bread", "pasta", "rice", "oats"]
def paleoDairyKeywords : List String := ["milk", "cheese", "yogurt"]
def whole30Prohibited : List String :=
  ["sugar", "honey", "maple", "dairy", "grain", "legume", "alcohol"]

/-- `_identify_special_diets`.  Note the keto branch reads
`nutrition.get('carbs', 999)`: a missing carbs key defaults to 999, not 0. -/
def identifySpecialDiets (r : Recipe) : List String :=
  let ingredients_text := ingredientsText r.ingredients
  let existing_tags := r.tagsD
  let keto :=
    if r.nutrition.carbs.getD 999 < 10 ∧ 15 < r.nutrition.fat.getD 0
    then ["keto-friendly"] else []
  let paleo :=
    if !((paleoGrainKeywords ++ paleoDairyKeywords).any
          (fun kw => strContains ingredients_text kw)) &&
       !(existing_tags.contains "vegetarian")
    then ["paleo-friendly"] else []
  let whole30 :=
    if !(whole30Prohibited.any (fun item => strContains ingredients_text item))
    then ["whole30-compatible"] else []
  keto ++ paleo ++ whole30

/-- `RecipeEnricher.enrich_recipe`, minus the object-level statistics.

`enriched = recipe.copy()` is a *shallow* copy, so when the input has a
`tags` key the list object is shared and every `extend`/`append` also
mutates the input.  The second component returned here is the final value
of that shared list (the accumulated tags before the closing
`list(set(...))` rebinding); the first component is the enriched record,
whose tag list is deduplicated (Python set order is unspecified, `dedup`
fixes one canonical order — claims only inspect membership). -/
def enrichCore (r : Recipe) : Recipe × List String :=
  let ing_text := ingredientsText r.ingredients
  let title := lowerStr r.title
  let description := lowerStr r.description
  let instr := instructionsText r.instructions
  let seasonal := classifySeasonal ing_text
  let cuisine := classifyCuisine ing_text title description
  let trimester := assessTrimester ing_text
  let batch := isBatchFriendly title instr
  let freezer := isFreezerFriendly title instr description
  let shopping := generateShoppingList r.ingredients
  let methods := extractCookingMethods instr
  let timeCat := categorizePrepTime (r.prepTime + r.cookTime)
  let t6 := r.tagsD ++ seasonal ++
    (match cuisine with | some c => ["cuisine-" ++ c] | none => []) ++
    trimester.2 ++
    (if batch then ["batch-cooking"] else []) ++
    (if freezer then ["freezer-friendly"] else []) ++
    methods.map (fun m => "method-" ++ m) ++
    timeCat.toList
  let diets := identifySpecialDiets {r with tags := some t6}
  let accum := t6 ++ diets
  ({r with
      tags := some accum.dedup
      seasonalTags := seasonal
      cuisine := match cuisine with | some c => some c | none => r.cuisine
      trimesterSuitability := trimester.1
      batchFriendly := batch
      freezerFriendly := freezer
      shoppingList := shopping
      cookingMethods := methods
      timeCategory := match timeCat with | some tc => some tc | none => r.timeCategory },
   accum)

/-- The enriched record returned by `enrich_recipe`. -/
def enrichRecipe (r : Recipe) : Recipe := (enrichCore r).1

/-- The input candidate's `tags` entry after `enrich_recipe` returns: when the
input had a tags key, its list object was shared with the copy and extended
in place; when it had none, the input is untouched. -/
def enrichInputTagsAfter (r : Recipe) : Option (List String) :=
  match r.tags with
  | none => none
  | some _ => some (enrichCore r).2

/-! ## Duplicate Detector (`duplicate_detector.py`)

The fuzzy string ratios come from the external `fuzzywuzzy` library and
numpy supplies the floating-point square root inside the vector norm;
both are parameters here (`FuzzFns`, `sqrtF`), the detector's own code is
translated literally. -/

/-- The three `fuzzywuzzy` primitives used by `_calculate_title_similarity`
and the `find_duplicates` pre-filter, as 0–100 scores. -/
structure FuzzFns where
  ratioFn : String → String → ℚ
  tokenFn : String → String → ℚ
  partFn : String → String → ℚ

/-- `SIMILARITY_WEIGHTS` and `DUPLICATE_THRESHOLDS['combined_threshold']`. -/
def combinedThreshold : ℚ := 3/4

/-- Descriptor words stripped by `_extract_main_ingredient`. -/
def ingredientDescriptors : List String :=
  ["fresh", "frozen", "canned", "dried", "chopped", "diced",
   "sliced", "minced", "ground", "whole", "large", "small",
   "medium", "organic", "low-fat", "fat-free", "boneless",
   "skinless", "cooked", "raw", "unsalted", "salted"]

/-- `_extract_main_ingredient`. -/
def extractMainIngredient (ingredient_name : String) : String :=
  let words := pySplit ingredient_name
  let main_words := words.filter (fun w => !(ingredientDescriptors.contains w))
  let result := joinWith " " main_words
  if strContains result "(" then pyStrip (beforeChar result '(') else result

/-- The set of main ingredients built by `_calculate_ingredient_similarity`
for one recipe's ingredient list. -/
def mainIngredientSet (ings : List Ingredient) : Finset String :=
  (ings.filterMap (fun ing =>
    let nm := pyStrip (lowerStr ing.name)
    if nm = "" then none else some (extractMainIngredient nm))).toFinset

/-- `_calculate_ingredient_similarity`: Jaccard index over main-ingredient
sets, 0.0 when either set is empty. -/
def ingredientSimilarity (ings1 ings2 : List Ingredient) : ℚ :=
  let names1 := mainIngredientSet ings1
  let names2 := mainIngredientSet ings2
  if names1 = ∅ ∨ names2 = ∅ then 0
  else
    let intersection := (names1 ∩ names2).card
    let union := (names1 ∪ names2).card
    if 0 < union then (intersection : ℚ) / (union : ℚ) else 0

/-- `_calculate_title_similarity`: weighted mix of the three fuzz ratios. -/
def titleSimilarity (fz : FuzzFns) (title1 title2 : String) : ℚ :=
  let basic := fz.ratioFn (lowerStr title1) (lowerStr title2) / 100
  let token := fz.tokenFn (lowerStr title1) (lowerStr title2) / 100
  let part := fz.partFn (lowerStr title1) (lowerStr title2) / 100
  basic * (1/2) + token * (3/10) + part * (1/5)

/-- The paired nutrient values of `_calculate_nutrition_similarity`: the 7
key nutrients in source order, dropping dimensions where both are zero. -/
def nutritionPairs (n1 n2 : NutritionMap) : List (ℚ × ℚ) :=
  ([(n1.calories.getD 0, n2.calories.getD 0),
    (n1.carbs.getD 0, n2.carbs.getD 0),
    (n1.protein.getD 0, n2.protein.getD 0),
    (n1.fat.getD 0, n2.fat.getD 0),
    (n1.fiber.getD 0, n2.fiber.getD 0),
    (n1.sugar.getD 0, n2.sugar.getD 0),
    (n1.sodium.getD 0, n2.sodium.getD 0)]).filter
    (fun p => !(p.1 == 0 && p.2 == 0))

/-- The `1e-10` guard numpy-norm denominator offset. -/
def normEps : ℚ := 1 / 10000000000

/-- `_calculate_nutrition_similarity`: cosine similarity of the comparable
dimensions, with `sqrtF` standing for numpy's floating-point square root in
`np.linalg.norm`; 0.0 when no dimension is comparable. -/
def nutritionSimilarity (sqrtF : ℚ → ℚ) (n1 n2 : NutritionMap) : ℚ :=
  let ps := nutritionPairs n1 n2
  if ps = [] then 0
  else
    let norm1 := sqrtF ((ps.map (fun p => p.1 * p.1)).sum)
    let norm2 := sqrtF ((ps.map (fun p => p.2 * p.2)).sum)
    ((ps.map (fun p => (p.1 / (norm1 + normEps)) * (p.2 / (norm2 + normEps)))).sum)

/-- The cooking-method tag filter of `_calculate_method_similarity`. -/
def isMethodTag (tag : String) : Bool :=
  strContains tag "method-" ||
  (["bake", "grill", "roast", "steam", "fry"].any (fun m => strContains tag m))

/-- The method-tag set of one recipe. -/
def methodTagSet (r : Recipe) : Finset String :=
  (r.tagsD.filter isMethodTag).toFinset

/-- `_calculate_method_similarity`: Jaccard over method tags when both
recipes have some; otherwise total-time proximity when both times are
positive; otherwise the neutral 0.5. -/
def methodSimilarity (r1 r2 : Recipe) : ℚ :=
  let m1 := methodTagSet r1
  let m2 := methodTagSet r2
  if m1 = ∅ ∨ m2 = ∅ then
    let time1 := r1.prepTime + r1.cookTime
    let time2 := r2.prepTime + r2.cookTime
    if 0 < time1 ∧ 0 < time2 then
      1 - |(time1 : ℚ) - (time2 : ℚ)| / max (time1 : ℚ) (time2 : ℚ)
    else 1/2
  else
    let intersection := (m1 ∩ m2).card
    let union := (m1 ∪ m2).card
    if 0 < union then (intersection : ℚ) / (union : ℚ) else 0

/-- The record returned by `calculate_similarity`. -/
structure SimResult where
  title_similarity : ℚ
  ingredient_similarity : ℚ
  nutrition_similarity : ℚ
  method_similarity : ℚ
  combined_score : ℚ
  isDuplicate : Bool
deriving DecidableEq

/-- `DuplicateDetector.calculate_similarity` with the 0.3/0.4/0.2/0.1
component weights and the 0.75 duplicate threshold. -/
def calculateSimilarity (fz : FuzzFns) (sqrtF : ℚ → ℚ) (r1 r2 : Recipe) : SimResult :=
  let title_sim := titleSimilarity fz r1.title r2.title
  let ingredient_sim := ingredientSimilarity r1.ingredients r2.ingredients
  let nutrition_sim := nutritionSimilarity sqrtF r1.nutrition r2.nutrition
  let method_sim := methodSimilarity r1 r2
  let combined := (3/10) * title_sim + (2/5) * ingredient_sim +
    (1/5) * nutrition_sim + (1/10) * method_sim
  ⟨title_sim, ingredient_sim, nutrition_sim, method_sim, combined,
   decide (combinedThreshold ≤ combined)⟩

/-- Stable descending insertion by combined score (Python `list.sort`
with `reverse=True` is stable). -/
def insDescBySim (a : Recipe × SimResult) :
    List (Recipe × SimResult) → List (Recipe × SimResult)
  | [] => [a]
  | b :: t =>
    if b.2.combined_score < a.2.combined_score then a :: b :: t else b :: insDescBySim a t

def sortDescBySim (xs : List (Recipe × SimResult)) : List (Recipe × SimResult) :=
  xs.foldl (fun acc a => insDescBySim a acc) []

/-- `DuplicateDetector.find_duplicates` over the reference list
`existing_recipes` (the numeric index stored with each match is omitted):
fuzzy title pre-filter at ratio > 70, full scoring, threshold at 0.75,
sorted by combined score descending. -/
def findDuplicates (fz : FuzzFns) (sqrtF : ℚ → ℚ) (existing : List Recipe)
    (r : Recipe) : List (Recipe × SimResult) :=
  let recipe_title := lowerStr r.title
  let potential := existing.filter (fun ex =>
    decide (70 < fz.ratioFn recipe_title (lowerStr ex.title)))
  let scored := potential.filterMap (fun ex =>
    let s := calculateSimilarity fz sqrtF r ex
    if combinedThreshold ≤ s.combined_score then some (ex, s) else none)
  sortDescBySim scored

/-- `DuplicateDetector.add_recipe`: append to the reference list (the
derived title index and the periodically rebuilt TF-IDF vectors are caches
of this list and are not modelled). -/
def detectorAddRecipe (existing : List Recipe) (r : Recipe) : List Recipe :=
  existing ++ [r]

/-! ## Diversity Tracker (`diversity_tracker.py`)

Python's counter dicts (`defaultdict(int)`) are insertion-ordered
association lists.  A missing key reads as 0; `defaultdict`'s creation of
zero-valued entries on bare reads is value-irrelevant and not modelled. -/

/-- An insertion-ordered `str → int` counter dict. -/
abbrev CDict := List (String × ℕ)

/-- Read a counter (0 when the key is absent). -/
def dGet (d : CDict) (k : String) : ℕ :=
  match d.find? (fun p => p.1 == k) with
  | some p => p.2
  | none => 0

/-- `d[k] += 1` on a counter dict, creating the key at the back. -/
def dBump : CDict → String → CDict
  | [], k => [(k, 1)]
  | (k', v) :: t, k => if k' = k then (k, v + 1) :: t else (k', v) :: dBump t k

/-- `dict.get(k, default)` on a plain target table. -/
def dGetD (d : CDict) (k : String) (dflt : ℕ) : ℕ :=
  match d.find? (fun p => p.1 == k) with
  | some p => p.2
  | none => dflt

/-- Python `k in d`. -/
def dHasKey (d : CDict) (k : String) : Bool := d.any (fun p => p.1 == k)

/-- The row of a nested counter dict (empty when absent). -/
def mRow (m : List (String × CDict)) (k : String) : CDict :=
  match m.find? (fun p => p.1 == k) with
  | some p => p.2
  | none => []

/-- `m[k1][k2] += 1` on a nested counter dict. -/
def mBump : List (String × CDict) → String → String → List (String × CDict)
  | [], k1, k2 => [(k1, [(k2, 1)])]
  | (k', row) :: t, k1, k2 =>
    if k' = k1 then (k1, dBump row k2) :: t else (k', row) :: mBump t k1 k2

/-- Add to a Python `set` modelled as a duplicate-free list. -/
def setAdd (s : List String) (x : String) : List String :=
  if x ∈ s then s else s ++ [x]

/-- `COLLECTION_TARGETS['by_meal_type']`. -/
def mealTypeTargets : CDict :=
  [("breakfast", 90), ("lunch", 90), ("dinner", 90), ("snacks", 90)]

/-- `COLLECTION_TARGETS['by_cuisine']`. -/
def cuisineTargets : CDict :=
  [("mediterranean", 60), ("asian", 60), ("latin", 50), ("indian", 40),
   ("italian", 40), ("american", 40), ("middle_eastern", 30), ("other", 40)]

/-- The protein vocabulary of `_track_ingredient_diversity`. -/
def trackerProteins : List String :=
  ["chicken", "turkey", "beef", "pork", "lamb", "fish", "salmon",
   "tuna", "shrimp", "tofu", "tempeh", "beans", "lentils", "chickpeas",
   "eggs", "greek yogurt", "cottage cheese", "nuts", "quinoa"]

/-- The grain vocabulary of `_track_ingredient_diversity`. -/
def trackerGrains : List String :=
  ["rice", "brown rice", "wild rice", "quinoa", "oats", "barley",
   "bulgur", "wheat", "pasta", "bread", "couscous", "farro",
   "millet", "buckwheat", "corn", "polenta"]

/-- The special-diet tag list checked by `_update_stats`. -/
def specialDietTags : List String :=
  ["vegetarian", "vegan", "gluten-free", "dairy-free",
   "keto-friendly", "paleo-friendly"]

/-- `DiversityTracker.stats` (the `collection_date` timestamp is omitted). -/
structure Stats where
  total_count : ℕ := 0
  by_meal_type : CDict := []
  by_cuisine : CDict := []
  by_season : CDict := []
  by_prep_time : CDict := []
  by_special_diet : CDict := []
  by_source : CDict := []
  cuisine_meal_matrix : List (String × CDict) := []
  seasonal_meal_matrix : List (String × CDict) := []
  protein_sources : CDict := []
  grain_sources : CDict := []
  unique_ingredients : List String := []
  recipe_signatures : List String := []
deriving DecidableEq

/-- One entry of `DiversityTracker.recipes` (the `added_at` timestamp is
omitted). -/
structure TrackEntry where
  title : String
  meal_type : String
  cuisine : String
  seasons : List String
deriving DecidableEq

/-- The mutable state of a `DiversityTracker`. -/
structure Tracker where
  stats : Stats := {}
  recipes : List TrackEntry := []
deriving DecidableEq

/-- `DiversityTracker._get_meal_type`: tag or title hit for the four meal
words, else snacks below 200 calories, else breakfast keywords in the
title, else dinner. -/
def getMealTypeT (r : Recipe) : String :=
  let tags := r.tagsD
  let title := lowerStr r.title
  if "breakfast" ∈ tags ∨ strContains title "breakfast" then "breakfast"
  else if "lunch" ∈ tags ∨ strContains title "lunch" then "lunch"
  else if "dinner" ∈ tags ∨ strContains title "dinner" then "dinner"
  else if "snacks" ∈ tags ∨ strContains title "snacks" then "snacks"
  else if r.nutrition.calories.getD 0 < 200 then "snacks"
  else if strContains title "morning" ∨ strContains title "pancake" ∨
          strContains title "muffin" then "breakfast"
  else "dinner"

/-- `DiversityTracker._create_recipe_signature`: lower-stripped title plus
the sorted first-5 stopword-cleaned ingredient names, joined with `|`. -/
def recipeSignature (r : Recipe) : String :=
  let title := pyStrip (lowerStr r.title)
  let main_ingredients := (r.ingredients.take 5).map (fun ing =>
    let nm := pyStrip (lowerStr ing.name)
    joinWith " " ((pySplit nm).filter (fun w =>
      !(["the", "a", "an", "and", "or", "of"].contains w))))
  joinWith "|" (title :: sortedStr main_ingredients)

/-- `DiversityTracker._update_stats` (including the inlined
`_track_ingredient_diversity`).  The source mutates `self.stats` field by
field; the updates of distinct fields are independent, so each field's
final value is given directly. -/
def updateStats (st : Stats) (r : Recipe) (meal_type cuisine : String)
    (seasons : List String) (prep_time : String) (tags : List String) : Stats :=
  let text := ingredientsText r.ingredients
  { st with
    total_count := st.total_count + 1
    by_meal_type := dBump st.by_meal_type meal_type
    by_cuisine := if cuisine ≠ "" then dBump st.by_cuisine cuisine else st.by_cuisine
    cuisine_meal_matrix :=
      if cuisine ≠ "" then mBump st.cuisine_meal_matrix meal_type cuisine
      else st.cuisine_meal_matrix
    by_season := seasons.foldl (fun acc season => dBump acc season) st.by_season
    seasonal_meal_matrix :=
      seasons.foldl (fun acc season => mBump acc meal_type season) st.seasonal_meal_matrix
    by_prep_time :=
      if prep_time ≠ "" then dBump st.by_prep_time prep_time else st.by_prep_time
    by_special_diet := specialDietTags.foldl (fun acc diet =>
      if diet ∈ tags then dBump acc diet else acc) st.by_special_diet
    by_source := dBump st.by_source (r.sourceSite.getD "unknown")
    protein_sources := trackerProteins.foldl (fun acc p =>
      if strContains text p then dBump acc p else acc) st.protein_sources
    grain_sources := trackerGrains.foldl (fun acc g =>
      if strContains text g then dBump acc g else acc) st.grain_sources
    unique_ingredients := r.ingredients.foldl (fun acc ing =>
      let nm := pyStrip (lowerStr ing.name)
      if nm ≠ "" then setAdd acc nm else acc) st.unique_ingredients
    recipe_signatures := setAdd st.recipe_signatures (recipeSignature r) }

/-- `DiversityTracker.add_recipe`: `((should_add, reasons), tracker')`.
Quota checks on the meal-type and (truthy) cuisine counters decide
admission; the cuisine-diversity check only appends a reason; stats and the
`recipes` audit list are updated only when admitted. -/
def trackerAddRecipe (t : Tracker) (r : Recipe) : (Bool × List String) × Tracker :=
  let meal_type := getMealTypeT r
  let cuisine := r.cuisine.getD "other"
  let seasons := r.seasonalTags
  let prep_time := r.timeCategory.getD "quick-meals"
  let tags := r.tagsD
  let hitMeal := dGetD mealTypeTargets meal_type 90 ≤ dGet t.stats.by_meal_type meal_type
  let hitCuisine := cuisine ≠ "" ∧
    dGetD cuisineTargets cuisine 40 ≤ dGet t.stats.by_cuisine cuisine
  let should_add := ¬ hitMeal ∧ ¬ hitCuisine
  let row := mRow t.stats.cuisine_meal_matrix meal_type
  let diversityReasons :=
    if meal_type ≠ "" ∧ (row.filter (fun p => 0 < p.2)).length < 4 ∧
       dHasKey row cuisine then
      ["Need more cuisine diversity in " ++ meal_type]
    else []
  let reasons :=
    (if hitMeal then ["Already have enough " ++ meal_type ++ " recipes"] else []) ++
    (if hitCuisine then ["Already have enough " ++ cuisine ++ " cuisine recipes"] else []) ++
    diversityReasons
  if should_add then
    ((true, reasons),
     { stats := updateStats t.stats r meal_type cuisine seasons prep_time tags,
       recipes := t.recipes ++ [⟨r.title, meal_type, cuisine, seasons⟩] })
  else ((false, reasons), t)

/-- `DiversityTracker.check_duplicate`. -/
def trackerCheckDuplicate (t : Tracker) (r : Recipe) : Bool :=
  recipeSignature r ∈ t.stats.recipe_signatures

/-! ## Curation pipeline (`enhanced_recipe_scraper.py :: process_recipe`) -/

/-- The shared mutable state `process_recipe` touches: the diversity
tracker and the duplicate detector's reference list. -/
structure PipeState where
  tracker : Tracker := {}
  detector : List Recipe := []
deriving DecidableEq

/-- `EnhancedRecipeScraper.process_recipe`, minus image processing, the
`processedAt`/`scraper`/`validationStatus` metadata, logging and the
session statistics: validation gate, duplicate flagging, enrichment,
diversity admission, then *unconditional* registration of the processed
record in the duplicate detector's reference list.  Returns the new state
and the processed record (`none` when validation rejected it). -/
def processRecipe (fz : FuzzFns) (sqrtF : ℚ → ℚ) (st : PipeState) (r : Recipe) :
    PipeState × Option Recipe :=
  let v := validateRecipe r
  if v.1 = false then (st, none)
  else
    let duplicates := findDuplicates fz sqrtF st.detector r
    let r1 :=
      match duplicates with
      | [] => r
      | d :: _ => { r with potentialDuplicate := true, duplicateOf := some d.1.title }
    let enriched := enrichRecipe r1
    let added := trackerAddRecipe st.tracker enriched
    let enriched2 :=
      if added.1.1 = false then
        { enriched with surplus := true, surplusReasons := added.1.2 }
      else enriched
    ({ tracker := added.2, detector := detectorAddRecipe st.detector enriched2 },
     some enriched2)

/-! ## Concrete inputs used by witnesses and counterexamples -/

/-- A well-formed dinner candidate that passes validation. -/
def rQdemo : Recipe := {
  title := "Quinoa Veggie Bowl",
  ingredients := [⟨"quinoa", 1, "cup"⟩, ⟨"spinach", 2, "cups"⟩, ⟨"chickpeas", 1, "cup"⟩],
  instructions := ["Cook the quinoa", "Serve fresh"],
  nutrition := { calories := some 320, carbs := some 40, fiber := some 6, protein := some 16,
                 sugar := some 4, fat := some 9 },
  prepTime := 10, cookTime := 15,
  tags := some ["dinner"] }

/-- The Scenario-A candidate: breakfast tag, carbs 35 g, fiber 4 g,
protein 12 g, total time 20 min, all required fields present. -/
def rScenA : Recipe := {
  title := "Berry Oat Bowl",
  ingredients := [⟨"rolled oats", 1, "cup"⟩, ⟨"berries", 1, "cup"⟩, ⟨"greek yogurt", 1, "cup"⟩],
  instructions := ["Mix everything", "Serve fresh"],
  nutrition := { calories := some 300, carbs := some 35, fiber := some 4, protein := some 12,
                 sugar := some 5, fat := some 8 },
  prepTime := 10, cookTime := 10,
  tags := some ["breakfast"] }

/-- A snack candidate with carbs far below the snack minimum: fails validation. -/
def rBad : Recipe := {
  title := "Celery Sticks",
  ingredients := [⟨"celery", 4, "stalks"⟩, ⟨"lemon", 1, ""⟩, ⟨"salt", 1, "pinch"⟩],
  instructions := ["Cut and serve raw"],
  nutrition := { calories := some 50, carbs := some 5, fiber := some 2, protein := some 1 },
  prepTime := 5, cookTime := 0,
  tags := some ["snack"] }

/-- A candidate with no ingredients whose instructions mention `raw`. -/
def rGIempty : Recipe := { ingredients := [], instructions := ["serve raw"] }

/-- A candidate with a tags key: its list is aliased by the enricher's
shallow copy. -/
def rTagShare : Recipe := {
  title := "Avocado Egg Plate",
  ingredients := [⟨"avocado", 1, ""⟩, ⟨"eggs", 2, ""⟩, ⟨"spinach", 1, "cup"⟩],
  instructions := ["Cook the eggs", "Serve"],
  nutrition := { fat := some 20, protein := some 14 },
  prepTime := 5, cookTime := 5,
  tags := some ["breakfast"] }

/-- A candidate whose nutrition omits `carbs` and whose fat exceeds 15 g. -/
def rKeto : Recipe := {
  title := "Butter Salmon",
  ingredients := [⟨"salmon", 1, "fillet"⟩, ⟨"butter", 2, "tbsp"⟩, ⟨"dill", 1, "tsp"⟩],
  instructions := ["Pan sear the salmon"],
  nutrition := { fat := some 20, protein := some 30 },
  prepTime := 5, cookTime := 10,
  tags := some [] }

/-- A 200-calorie candidate with no meal tags and a neutral title. -/
def rCal200 : Recipe := {
  title := "Cheese Plate",
  ingredients := [⟨"cheese", 1, ""⟩, ⟨"crackers", 5, ""⟩, ⟨"grapes", 10, ""⟩],
  instructions := ["Arrange"],
  nutrition := { calories := some 200 },
  tags := some [] }

/-- A pipeline state whose dinner quota is already met. -/
def stFull : PipeState :=
  { tracker := { stats := { by_meal_type := [("dinner", 90)] } } }

/-- Concrete (constant, hence symmetric) stand-ins for the fuzzywuzzy ratios. -/
def fzConst : FuzzFns := ⟨fun _ _ => 80, fun _ _ => 90, fun _ _ => 95⟩

/-! ## C1: diversity admission rule -/

/-- C1: for every enriched candidate (its cuisine entry, when present, is a
non-empty enum value), `DiversityTracker.add_recipe` admits exactly when the
candidate's meal-type counter is below that meal-type's target and its
cuisine counter is below that cuisine's target; hitting either quota makes
it surplus.  In particular, once `by_meal_type[m]` reaches `target[m]`,
every further meal-type-`m` candidate is rejected as surplus. -/
theorem diversity_admission_rule (t : Tracker) (r : Recipe)
    (hc : r.cuisine ≠ some "") :
    (trackerAddRecipe t r).1.1 = true ↔
      dGet t.stats.by_meal_type (getMealTypeT r) <
        dGetD mealTypeTargets (getMealTypeT r) 90 ∧
      dGet t.stats.by_cuisine (r.cuisine.getD "other") <
        dGetD cuisineTargets (r.cuisine.getD "other") 40 := by
  have hcu : r.cuisine.getD "other" ≠ "" := by
    cases h : r.cuisine with
    | none => simp
    | some c =>
      simp only [Option.getD_some]
      intro hh
      exact hc (by rw [h, hh])
  have key : (trackerAddRecipe t r).1.1 = true ↔
      ¬ (dGetD mealTypeTargets (getMealTypeT r) 90 ≤
          dGet t.stats.by_meal_type (getMealTypeT r)) ∧
      ¬ (r.cuisine.getD "other" ≠ "" ∧
          dGetD cuisineTargets (r.cuisine.getD "other") 40 ≤
            dGet t.stats.by_cuisine (r.cuisine.getD "other")) := by
    simp only [trackerAddRecipe]
    by_cases h : ¬ (dGetD mealTypeTargets (getMealTypeT r) 90 ≤
          dGet t.stats.by_meal_type (getMealTypeT r)) ∧
        ¬ (r.cuisine.getD "other" ≠ "" ∧
          dGetD cuisineTargets (r.cuisine.getD "other") 40 ≤
            dGet t.stats.by_cuisine (r.cuisine.getD "other"))
    · simp [h]
    · simp only [if_neg h]
      simpa using h
  rw [key]
  simp [hcu, Nat.not_le]

/-- C1 witness: on the empty tracker the dinner-tagged demo candidate is
admitted, matching the below-both-targets condition. -/
theorem diversity_admission_rule_witness :
    (trackerAddRecipe {} rQdemo).1.1 = true ↔
      dGet (Tracker.stats {}).by_meal_type (getMealTypeT rQdemo) <
        dGetD mealTypeTargets (getMealTypeT rQdemo) 90 ∧
      dGet (Tracker.stats {}).by_cuisine (rQdemo.cuisine.getD "other") <
        dGetD cuisineTargets (rQdemo.cuisine.getD "other") 40 :=
  diversity_admission_rule {} rQdemo (by decide)

/-! ## C10: meal-type classification divergence -/

/-- C10: a candidate with no meal tags, a neutral title and exactly 200
calories is gated by the Quality Validator in the snacks category
(`0 < calories <= 200`), while the Diversity Tracker's classifier (whose
snack rule requires `calories < 200` and whose fallback is dinner) counts
it as dinner. -/
theorem meal_type_divergence (r : Recipe)
    (g1 : "snack" ∉ r.tagsD) (g2 : "appetizer" ∉ r.tagsD)
    (g3 : "breakfast" ∉ r.tagsD) (g4 : "lunch" ∉ r.tagsD)
    (g5 : "dinner" ∉ r.tagsD) (g6 : "main" ∉ r.tagsD) (g7 : "snacks" ∉ r.tagsD)
    (t1 : strContains (lowerStr r.title) "breakfast" = false)
    (t2 : strContains (lowerStr r.title) "lunch" = false)
    (t3 : strContains (lowerStr r.title) "dinner" = false)
    (t4 : strContains (lowerStr r.title) "snacks" = false)
    (t5 : strContains (lowerStr r.title) "morning" = false)
    (t6 : strContains (lowerStr r.title) "pancake" = false)
    (t7 : strContains (lowerStr r.title) "muffin" = false)
    (hcal : r.nutrition.calories = some 200) :
    determineMealTypeV r = "snacks" ∧ getMealTypeT r = "dinner" := by
  constructor
  · simp only [determineMealTypeV, hcal, Option.getD_some]
    rw [if_neg (by simp [g1, g2]), if_neg (by simp [g3, g4, g5, g6]),
      if_pos (by norm_num)]
  · simp only [getMealTypeT, hcal, Option.getD_some]
    rw [if_neg (by simp [g3, t1]), if_neg (by simp [g4, t2]), if_neg (by simp [g5, t3]),
      if_neg (by simp [g7, t4]), if_neg (by norm_num), if_neg (by simp [t5, t6, t7])]

/-- C10 witness: the 200-calorie cheese-plate demo candidate. -/
theorem meal_type_divergence_witness :
    determineMealTypeV rCal200 = "snacks" ∧ getMealTypeT rCal200 = "dinner" :=
  meal_type_divergence rCal200 (by decide) (by decide) (by decide) (by decide)
    (by decide) (by decide) (by decide) (by decide) (by decide) (by decide)
    (by decide) (by decide) (by decide) (by decide) rfl

/-! ## C5: glycemic-index estimation -/

/-- C5 counterexample: on a candidate with no ingredients whose
instructions mention `raw`, the source estimator answers `unknown` (its
empty-ingredient guard fires before the instruction bonuses), while the
claimed rule, which counts the `raw` bonus as a match, answers `low`. -/
theorem gi_estimation_cex :
    estimateGI rGIempty = "unknown" ∧ giEstimateSpec rGIempty = "low" := by decide

/-- C5 amended: the claimed estimation rule is exactly what the source
computes for candidates with a non-empty ingredient list; when the
ingredient list is empty the source returns `unknown` without consulting
the instructions. -/
theorem gi_estimation_amended (r : Recipe) :
    estimateGI r = if r.ingredients = [] then "unknown" else giEstimateSpec r := by
  by_cases h : r.ingredients = [] <;> simp [estimateGI, giEstimateSpec, h]

/-! ## C2: commit idempotence -/

/-- An element is a member of the set it was added to. -/
theorem mem_setAdd_self (s : List String) (x : String) : x ∈ setAdd s x := by
  unfold setAdd
  by_cases h : x ∈ s <;> simp [h]

/-- When `add_recipe` admits, the tracker advances by `_update_stats` and
gains one audit entry. -/
theorem trackerAddRecipe_admitted (t : Tracker) (r : Recipe)
    (h : (trackerAddRecipe t r).1.1 = true) :
    (trackerAddRecipe t r).2 =
      { stats := updateStats t.stats r (getMealTypeT r) (r.cuisine.getD "other")
          r.seasonalTags (r.timeCategory.getD "quick-meals") r.tagsD,
        recipes := t.recipes ++
          [⟨r.title, getMealTypeT r, r.cuisine.getD "other", r.seasonalTags⟩] } := by
  simp only [trackerAddRecipe] at h ⊢
  by_cases hc : ¬ (dGetD mealTypeTargets (getMealTypeT r) 90 ≤
        dGet t.stats.by_meal_type (getMealTypeT r)) ∧
      ¬ (r.cuisine.getD "other" ≠ "" ∧
        dGetD cuisineTargets (r.cuisine.getD "other") 40 ≤
          dGet t.stats.by_cuisine (r.cuisine.getD "other"))
  · rw [if_pos hc]
  · rw [if_neg hc] at h
    simp at h

/-- C2 counterexample: committing the demo candidate into an empty tracker
records its signature, yet reprocessing the very same candidate (identical
normalized signature) changes the total ledger counter from 1 to 2. -/
theorem commit_idempotence_cex :
    recipeSignature rQdemo ∈ (trackerAddRecipe {} rQdemo).2.stats.recipe_signatures ∧
    (trackerAddRecipe (trackerAddRecipe {} rQdemo).2 rQdemo).2.stats.total_count ≠
      (trackerAddRecipe {} rQdemo).2.stats.total_count := by decide

/-- C2 amended: after a candidate is committed its normalized signature is
recorded, so `check_duplicate` recognizes any candidate with the identical
signature; but `add_recipe` never consults the signature set — whenever its
quota checks still pass it admits the duplicate again and increments the
total counter (so the ledger is *not* left unchanged). -/
theorem commit_idempotence_amended (t : Tracker) (r r' : Recipe)
    (hadd : (trackerAddRecipe t r).1.1 = true)
    (hsig : recipeSignature r' = recipeSignature r) :
    trackerCheckDuplicate (trackerAddRecipe t r).2 r' = true ∧
    ((trackerAddRecipe (trackerAddRecipe t r).2 r').1.1 = true →
      (trackerAddRecipe (trackerAddRecipe t r).2 r').2.stats.total_count =
        (trackerAddRecipe t r).2.stats.total_count + 1) := by
  constructor
  · rw [trackerCheckDuplicate, trackerAddRecipe_admitted t r hadd]
    exact decide_eq_true (by rw [hsig]; exact mem_setAdd_self _ _)
  · intro h2
    rw [trackerAddRecipe_admitted _ r' h2]
    rfl

/-- C2 amended witness: the demo candidate on the empty tracker. -/
theorem commit_idempotence_amended_witness :
    trackerCheckDuplicate (trackerAddRecipe {} rQdemo).2 rQdemo = true ∧
    ((trackerAddRecipe (trackerAddRecipe {} rQdemo).2 rQdemo).1.1 = true →
      (trackerAddRecipe (trackerAddRecipe {} rQdemo).2 rQdemo).2.stats.total_count =
        (trackerAddRecipe {} rQdemo).2.stats.total_count + 1) :=
  commit_idempotence_amended {} rQdemo rQdemo (by decide) rfl

/-! ## C4: Scenario A -/

/-- C4 counterexample: the concrete Scenario-A candidate (breakfast tag,
carbs 35 g, fiber 4 g, protein 12 g, 20 min, all required fields present)
does not pass: its only blocking error is the fiber floor of the meals
category (fiber 4 g < 5 g). -/
theorem scenario_a_cex :
    (validateRecipe rScenA).1 = false ∧
    (validateRecipe rScenA).2.1 = [VErr.fiberTooLow 4 5] := by decide

/-- The validator's pass flag is emptiness of its own blocking-error list. -/
theorem validateRecipe_passed_iff (r : Recipe) :
    (validateRecipe r).1 = decide ((validateRecipe r).2.1.length = 0) := rfl

/-- The validator's blocking-error list, by provenance. -/
theorem validateRecipe_errors (r : Recipe) :
    (validateRecipe r).2.1 =
      validateRequiredFields r ++
      (validateNutrition r.nutrition
        (if determineMealTypeV r = "snacks" then snacksGuidelines else mealsGuidelines)).1 ++
      (if estimateGI r = "high" then [VErr.giHigh] else []) := rfl

/-- The validator's warning list, by provenance. -/
theorem validateRecipe_warnings (r : Recipe) :
    (validateRecipe r).2.2 =
      (validateNutrition r.nutrition
        (if determineMealTypeV r = "snacks" then snacksGuidelines else mealsGuidelines)).2 ++
      (if 45 < r.prepTime + r.cookTime then [VWarn.timeExceeds (r.prepTime + r.cookTime)]
       else []) ++
      validateIngredients r.ingredients ++
      (if estimateGI r = "unknown" then [VWarn.giUnknown] else []) ++
      (if checkAllergens r.ingredients ≠ [] then [VWarn.allergens (checkAllergens r.ingredients)]
       else []) := rfl

/-- C4 amended: every breakfast-tagged candidate with carbs 35 g, fiber 4 g
and protein 12 g is classified into the meals category and *rejected*: the
fiber floor (5 g for meals) is a blocking error, so `validate_recipe`
returns passed = false; the low protein is only a warning. -/
theorem scenario_a_amended (r : Recipe)
    (hb : "breakfast" ∈ r.tagsD) (hs1 : "snack" ∉ r.tagsD) (hs2 : "appetizer" ∉ r.tagsD)
    (hcarb : r.nutrition.carbs = some 35) (hfib : r.nutrition.fiber = some 4)
    (hprot : r.nutrition.protein = some 12) (htime : r.prepTime + r.cookTime = 20) :
    (validateRecipe r).1 = false ∧
    VErr.fiberTooLow 4 5 ∈ (validateRecipe r).2.1 ∧
    VWarn.proteinLow 12 15 ∈ (validateRecipe r).2.2 := by
  have hmt : determineMealTypeV r = "meals" := by
    simp only [determineMealTypeV]
    rw [if_neg (by simp [hs1, hs2]), if_pos (Or.inl hb)]
  have hfe : VErr.fiberTooLow 4 5 ∈ (validateNutrition r.nutrition mealsGuidelines).1 := by
    simp only [validateNutrition, hcarb, hfib, Option.getD_some, mealsGuidelines]
    norm_num
  have hpw : VWarn.proteinLow 12 15 ∈ (validateNutrition r.nutrition mealsGuidelines).2 := by
    simp only [validateNutrition, hprot, Option.getD_some, mealsGuidelines]
    norm_num
  have herr : VErr.fiberTooLow 4 5 ∈ (validateRecipe r).2.1 := by
    rw [validateRecipe_errors, hmt]
    simp only [List.mem_append]
    exact Or.inl (Or.inr (by simpa using hfe))
  refine ⟨?_, herr, ?_⟩
  · rw [validateRecipe_passed_iff]
    simp [List.length_eq_zero, List.ne_nil_of_mem herr]
  · rw [validateRecipe_warnings, hmt]
    simp only [List.mem_append]
    exact Or.inl (Or.inl (Or.inl (Or.inl (by simpa using hpw))))

/-- C4 amended witness: the Scenario-A demo candidate. -/
theorem scenario_a_amended_witness :
    (validateRecipe rScenA).1 = false ∧
    VErr.fiberTooLow 4 5 ∈ (validateRecipe rScenA).2.1 ∧
    VWarn.proteinLow 12 15 ∈ (validateRecipe rScenA).2.2 :=
  scenario_a_amended rScenA (by decide) (by decide) (by decide) rfl rfl rfl (by decide)

/-! ## C3: commit as the single mutation point -/

/-- When `add_recipe` rejects (surplus), the tracker is unchanged. -/
theorem trackerAddRecipe_rejected (t : Tracker) (r : Recipe)
    (h : (trackerAddRecipe t r).1.1 = false) : (trackerAddRecipe t r).2 = t := by
  simp only [trackerAddRecipe] at h ⊢
  by_cases hc : ¬ (dGetD mealTypeTargets (getMealTypeT r) 90 ≤
        dGet t.stats.by_meal_type (getMealTypeT r)) ∧
      ¬ (r.cuisine.getD "other" ≠ "" ∧
        dGetD cuisineTargets (r.cuisine.getD "other") 40 ≤
          dGet t.stats.by_cuisine (r.cuisine.getD "other"))
  · rw [if_pos hc] at h
    simp at h
  · rw [if_neg hc]

/-- Enrichment never touches the `surplus` marker. -/
theorem enrichRecipe_surplus (r : Recipe) : (enrichRecipe r).surplus = r.surplus := rfl

/-- C3 counterexample: on a state whose dinner quota is met, the valid demo
candidate is marked surplus, yet the duplicate detector's reference index
still gains the record — the three stores are *not* all left unchanged for
a surplus candidate. -/
theorem commit_single_mutation_cex :
    (processRecipe fzConst id stFull rQdemo).2.map Recipe.surplus = some true ∧
    (processRecipe fzConst id stFull rQdemo).1.detector ≠ stFull.detector := by decide

/-- C3 amended: a candidate that fails validation leaves the whole state
unchanged, and a candidate marked surplus leaves the Diversity Ledger and
the tracker's accepted list unchanged — but every *validated* candidate,
surplus or not, is appended to the Duplicate Detector's reference index
(`process_recipe` calls `duplicate_detector.add_recipe` unconditionally
after the diversity check). -/
theorem commit_single_mutation_amended (fz : FuzzFns) (sqrtF : ℚ → ℚ)
    (st : PipeState) (r : Recipe) (hr : r.surplus = false) :
    ((validateRecipe r).1 = false → processRecipe fz sqrtF st r = (st, none)) ∧
    ((validateRecipe r).1 = true →
      ((processRecipe fz sqrtF st r).2.map Recipe.surplus = some true →
        (processRecipe fz sqrtF st r).1.tracker = st.tracker) ∧
      (processRecipe fz sqrtF st r).1.detector =
        st.detector ++ (processRecipe fz sqrtF st r).2.toList) := by
  constructor
  · intro hv
    simp [processRecipe, hv]
  · intro hv
    simp only [processRecipe, hv, Bool.true_eq_false, if_false]
    constructor
    · intro hs
      by_cases hadd :
          (trackerAddRecipe st.tracker
            (enrichRecipe
              (match findDuplicates fz sqrtF st.detector r with
               | [] => r
               | d :: _ =>
                 { r with potentialDuplicate := true, duplicateOf := some d.1.title }))).1.1 =
            false
      · exact trackerAddRecipe_rejected _ _ hadd
      · exfalso
        rw [if_neg hadd] at hs
        simp only [Option.map_some', Option.some.injEq, enrichRecipe_surplus] at hs
        cases hD : findDuplicates fz sqrtF st.detector r <;> rw [hD] at hs <;>
          simp [hr] at hs
    · simp [detectorAddRecipe]

/-- C3 amended witness: the invalid snack candidate leaves the quota-full
state untouched. -/
theorem commit_single_mutation_amended_witness :
    processRecipe fzConst id stFull rBad = (stFull, none) :=
  (commit_single_mutation_amended fzConst id stFull rBad (by decide)).1 (by decide)

/-! ## C6: similarity symmetry -/

/-- Swapping every pair commutes with the drop-both-zero filter. -/
theorem filter_nz_map_swap (l : List (ℚ × ℚ)) :
    (l.map Prod.swap).filter (fun p => !(p.1 == 0 && p.2 == 0)) =
    (l.filter (fun p => !(p.1 == 0 && p.2 == 0))).map Prod.swap := by
  induction l with
  | nil => rfl
  | cons a t ih =>
    simp only [List.map_cons, List.filter_cons]
    have hc : (!(a.swap.1 == 0 && a.swap.2 == 0)) = (!(a.1 == 0 && a.2 == 0)) := by
      cases a
      simp [Prod.swap, Bool.and_comm]
    rw [hc]
    by_cases h : (!(a.1 == 0 && a.2 == 0)) = true
    · rw [if_pos h, if_pos h, List.map_cons, ih]
    · rw [if_neg h, if_neg h, ih]

/-- The comparable-dimension pair list of the swapped arguments is the
elementwise swap. -/
theorem nutritionPairs_swap (n1 n2 : NutritionMap) :
    nutritionPairs n2 n1 = (nutritionPairs n1 n2).map Prod.swap := by
  unfold nutritionPairs
  rw [show [(n2.calories.getD 0, n1.calories.getD 0),
            (n2.carbs.getD 0, n1.carbs.getD 0),
            (n2.protein.getD 0, n1.protein.getD 0),
            (n2.fat.getD 0, n1.fat.getD 0),
            (n2.fiber.getD 0, n1.fiber.getD 0),
            (n2.sugar.getD 0, n1.sugar.getD 0),
            (n2.sodium.getD 0, n1.sodium.getD 0)] =
      ([(n1.calories.getD 0, n2.calories.getD 0),
        (n1.carbs.getD 0, n2.carbs.getD 0),
        (n1.protein.getD 0, n2.protein.getD 0),
        (n1.fat.getD 0, n2.fat.getD 0),
        (n1.fiber.getD 0, n2.fiber.getD 0),
        (n1.sugar.getD 0, n2.sugar.getD 0),
        (n1.sodium.getD 0, n2.sodium.getD 0)]).map Prod.swap from by
      simp [Prod.swap]]
  exact filter_nz_map_swap _

/-- The ingredient Jaccard score is symmetric. -/
theorem ingredientSimilarity_comm (i1 i2 : List Ingredient) :
    ingredientSimilarity i1 i2 = ingredientSimilarity i2 i1 := by
  simp only [ingredientSimilarity]
  by_cases h : mainIngredientSet i1 = ∅ ∨ mainIngredientSet i2 = ∅
  · rw [if_pos h, if_pos (Or.symm h)]
  · rw [if_neg h, if_neg (fun hh => h (Or.symm hh))]
    rw [Finset.inter_comm, Finset.union_comm]

/-- The nutrition cosine score is symmetric, whatever square root the
numeric backend computes. -/
theorem nutritionSimilarity_comm (sqrtF : ℚ → ℚ) (n1 n2 : NutritionMap) :
    nutritionSimilarity sqrtF n1 n2 = nutritionSimilarity sqrtF n2 n1 := by
  simp only [nutritionSimilarity]
  rw [nutritionPairs_swap n1 n2]
  by_cases h : nutritionPairs n1 n2 = []
  · simp [h]
  · rw [if_neg h, if_neg (by simpa using h)]
    have hs1 : ((nutritionPairs n1 n2).map Prod.swap).map (fun p => p.1 * p.1) =
        (nutritionPairs n1 n2).map (fun p => p.2 * p.2) := by
      simp [List.map_map, Function.comp_def]
    have hs2 : ((nutritionPairs n1 n2).map Prod.swap).map (fun p => p.2 * p.2) =
        (nutritionPairs n1 n2).map (fun p => p.1 * p.1) := by
      simp [List.map_map, Function.comp_def]
    rw [hs1, hs2, List.map_map]
    congr 1
    apply List.map_congr_left
    intro p _
    simp only [Function.comp_def, Prod.fst_swap, Prod.snd_swap]
    ring

/-- The cooking-method score is symmetric. -/
theorem methodSimilarity_comm (r1 r2 : Recipe) :
    methodSimilarity r1 r2 = methodSimilarity r2 r1 := by
  simp only [methodSimilarity]
  by_cases h : methodTagSet r1 = ∅ ∨ methodTagSet r2 = ∅
  · rw [if_pos h, if_pos (Or.symm h)]
    by_cases ht : 0 < r1.prepTime + r1.cookTime ∧ 0 < r2.prepTime + r2.cookTime
    · rw [if_pos ht, if_pos (And.intro ht.2 ht.1), abs_sub_comm, max_comm]
    · rw [if_neg ht, if_neg (fun hh => ht (And.intro hh.2 hh.1))]
  · rw [if_neg h, if_neg (fun hh => h (Or.symm hh))]
    rw [Finset.inter_comm, Finset.union_comm]

/-- C6: whenever the external fuzzy string ratios are symmetric (as the
three fuzzywuzzy primitives are meant to be), every component similarity
and the combined weighted score of `calculate_similarity` are symmetric in
the two recipes. -/
theorem similarity_symmetry (fz : FuzzFns) (sqrtF : ℚ → ℚ)
    (hr : ∀ a b, fz.ratioFn a b = fz.ratioFn b a)
    (ht : ∀ a b, fz.tokenFn a b = fz.tokenFn b a)
    (hp : ∀ a b, fz.partFn a b = fz.partFn b a)
    (r1 r2 : Recipe) :
    (calculateSimilarity fz sqrtF r1 r2).title_similarity =
      (calculateSimilarity fz sqrtF r2 r1).title_similarity ∧
    (calculateSimilarity fz sqrtF r1 r2).ingredient_similarity =
      (calculateSimilarity fz sqrtF r2 r1).ingredient_similarity ∧
    (calculateSimilarity fz sqrtF r1 r2).nutrition_similarity =
      (calculateSimilarity fz sqrtF r2 r1).nutrition_similarity ∧
    (calculateSimilarity fz sqrtF r1 r2).method_similarity =
      (calculateSimilarity fz sqrtF r2 r1).method_similarity ∧
    (calculateSimilarity fz sqrtF r1 r2).combined_score =
      (calculateSimilarity fz sqrtF r2 r1).combined_score := by
  have htit : titleSimilarity fz r1.title r2.title = titleSimilarity fz r2.title r1.title := by
    unfold titleSimilarity
    rw [hr, ht, hp]
  have hing := ingredientSimilarity_comm r1.ingredients r2.ingredients
  have hnut := nutritionSimilarity_comm sqrtF r1.nutrition r2.nutrition
  have hmet := methodSimilarity_comm r1 r2
  refine ⟨htit, hing, hnut, hmet, ?_⟩
  simp only [calculateSimilarity]
  rw [htit, hing, hnut, hmet]

/-- C6 witness: the constant (hence symmetric) fuzzy backend on the two
demo candidates. -/
theorem similarity_symmetry_witness :
    (calculateSimilarity fzConst id rQdemo rScenA).title_similarity =
      (calculateSimilarity fzConst id rScenA rQdemo).title_similarity ∧
    (calculateSimilarity fzConst id rQdemo rScenA).ingredient_similarity =
      (calculateSimilarity fzConst id rScenA rQdemo).ingredient_similarity ∧
    (calculateSimilarity fzConst id rQdemo rScenA).nutrition_similarity =
      (calculateSimilarity fzConst id rScenA rQdemo).nutrition_similarity ∧
    (calculateSimilarity fzConst id rQdemo rScenA).method_similarity =
      (calculateSimilarity fzConst id rScenA rQdemo).method_similarity ∧
    (calculateSimilarity fzConst id rQdemo rScenA).combined_score =
      (calculateSimilarity fzConst id rScenA rQdemo).combined_score :=
  similarity_symmetry fzConst id (fun _ _ => rfl) (fun _ _ => rfl) (fun _ _ => rfl)
    rQdemo rScenA

/-! ## C7: totality on degenerate inputs -/

/-- C7: the similarity components are total on degenerate inputs — an empty
main-ingredient set on either side yields ingredient similarity 0; when
every one of the seven nutrients is zero-or-absent in both recipes the
nutrition similarity is 0; the ingredient Jaccard's divisor is positive
whenever both sets are non-empty; and when neither method tags nor both
total times are available the method score is the neutral 0.5 with no
division at all. -/
theorem similarity_degenerate_safety (sqrtF : ℚ → ℚ) (r1 r2 : Recipe) :
    ((mainIngredientSet r1.ingredients = ∅ ∨ mainIngredientSet r2.ingredients = ∅) →
      ingredientSimilarity r1.ingredients r2.ingredients = 0) ∧
    ((r1.nutrition.calories.getD 0 = 0 ∧ r2.nutrition.calories.getD 0 = 0) ∧
     (r1.nutrition.carbs.getD 0 = 0 ∧ r2.nutrition.carbs.getD 0 = 0) ∧
     (r1.nutrition.protein.getD 0 = 0 ∧ r2.nutrition.protein.getD 0 = 0) ∧
     (r1.nutrition.fat.getD 0 = 0 ∧ r2.nutrition.fat.getD 0 = 0) ∧
     (r1.nutrition.fiber.getD 0 = 0 ∧ r2.nutrition.fiber.getD 0 = 0) ∧
     (r1.nutrition.sugar.getD 0 = 0 ∧ r2.nutrition.sugar.getD 0 = 0) ∧
     (r1.nutrition.sodium.getD 0 = 0 ∧ r2.nutrition.sodium.getD 0 = 0) →
      nutritionSimilarity sqrtF r1.nutrition r2.nutrition = 0) ∧
    (mainIngredientSet r1.ingredients ≠ ∅ → mainIngredientSet r2.ingredients ≠ ∅ →
      0 < (mainIngredientSet r1.ingredients ∪ mainIngredientSet r2.ingredients).card) ∧
    ((methodTagSet r1 = ∅ ∨ methodTagSet r2 = ∅) →
      ¬ (0 < r1.prepTime + r1.cookTime ∧ 0 < r2.prepTime + r2.cookTime) →
      methodSimilarity r1 r2 = 1/2) := by
  refine ⟨?_, ?_, ?_, ?_⟩
  · intro h
    simp only [ingredientSimilarity]
    rw [if_pos h]
  · rintro ⟨⟨a1, a2⟩, ⟨b1, b2⟩, ⟨c1, c2⟩, ⟨d1, d2⟩, ⟨e1, e2⟩, ⟨f1, f2⟩, ⟨g1, g2⟩⟩
    have hps : nutritionPairs r1.nutrition r2.nutrition = [] := by
      simp [nutritionPairs, a1, a2, b1, b2, c1, c2, d1, d2, e1, e2, f1, f2, g1, g2]
    simp [nutritionSimilarity, hps]
  · intro h1 _
    have : (mainIngredientSet r1.ingredients).Nonempty :=
      Finset.nonempty_iff_ne_empty.mpr h1
    exact Finset.card_pos.mpr (this.mono Finset.subset_union_left)
  · intro h1 h2
    simp only [methodSimilarity]
    rw [if_pos h1, if_neg h2]

/-- C7 witness: two entirely empty candidate records. -/
theorem similarity_degenerate_safety_witness :
    ingredientSimilarity (Recipe.ingredients {}) (Recipe.ingredients {}) = 0 ∧
    nutritionSimilarity id (Recipe.nutrition {}) (Recipe.nutrition {}) = 0 ∧
    methodSimilarity {} {} = 1/2 :=
  ⟨(similarity_degenerate_safety id {} {}).1 (Or.inl (by decide)),
   (similarity_degenerate_safety id {} {}).2.1
     (by refine ⟨⟨?_, ?_⟩, ⟨?_, ?_⟩, ⟨?_, ?_⟩, ⟨?_, ?_⟩, ⟨?_, ?_⟩, ⟨?_, ?_⟩, ⟨?_, ?_⟩⟩ <;> rfl),
   (similarity_degenerate_safety id {} {}).2.2.2 (Or.inl (by decide)) (by decide)⟩

/-! ## C8: enricher purity -/

/-- C8 (code bug): `enrich_recipe` promises "Make a copy to avoid modifying
original", but `recipe.copy()` is shallow — on a candidate that has a
`tags` key the enricher's `extend`/`append` calls go through the shared
list object, so after the call the *input's* tags list has grown from
`["breakfast"]` to the full accumulated tag list. -/
theorem enricher_purity_bug :
    rTagShare.tags = some ["breakfast"] ∧
    enrichInputTagsAfter rTagShare =
      some ["breakfast", "15-min-meals", "paleo-friendly", "whole30-compatible"] ∧
    enrichInputTagsAfter rTagShare ≠ rTagShare.tags := by decide

/-! ## C9: keto tagging under defaulting -/

/-- Seasonal classification only ever produces the five season tags. -/
theorem classifySeasonal_mem (text s : String) (h : s ∈ classifySeasonal text) :
    s ∈ ["spring", "summer", "fall", "winter", "year-round"] := by
  simp only [classifySeasonal] at h
  split at h
  · split at h
    · simp only [List.mem_singleton] at h
      simp [h]
    · simp at h
  · rw [List.mem_map] at h
    obtain ⟨p, hp, rfl⟩ := h
    have hmem := List.mem_of_mem_filter hp
    simp only [SEASONAL_INGREDIENTS, List.mem_cons, List.not_mem_nil, or_false] at hmem
    rcases hmem with rfl | rfl | rfl | rfl <;> simp

/-- Trimester assessment only ever produces its four fixed tags. -/
theorem assessTrimester_tags_mem (text t : String) (h : t ∈ (assessTrimester text).2) :
    t ∈ ["morning-sickness-friendly", "energy-boost", "easy-digest", "pregnancy-friendly"] := by
  simp only [assessTrimester] at h
  rw [List.mem_dedup] at h
  split at h
  · simp only [List.mem_singleton] at h
    simp [h]
  · rw [List.mem_flatten] at h
    obtain ⟨l, hl, hm⟩ := h
    rw [List.mem_map] at hl
    obtain ⟨q, hq, rfl⟩ := hl
    have hmem := List.mem_of_mem_filter hq
    simp only [TRIMESTER_CONSIDERATIONS, List.mem_cons, List.not_mem_nil, or_false] at hmem
    rcases hmem with rfl | rfl | rfl <;> simp_all

/-- The best-scoring entry produced by the fold is the initial accumulator
or one of the scanned entries. -/
theorem pickBest_mem : ∀ (l : List (String × ℕ)) (acc : Option (String × ℕ))
    (q : String × ℕ), l.foldl pickBest acc = some q → acc = some q ∨ q ∈ l := by
  intro l
  induction l with
  | nil => intro acc q h; exact Or.inl h
  | cons p t ih =>
    intro acc q h
    rcases ih (pickBest acc p) q h with h1 | h1
    · cases acc with
      | none =>
        simp only [pickBest, Option.some.injEq] at h1
        exact Or.inr (by simp [h1])
      | some x =>
        simp only [pickBest] at h1
        split at h1 <;> simp only [Option.some.injEq] at h1
        · exact Or.inr (by simp [h1])
        · exact Or.inl (by rw [h1])
    · exact Or.inr (List.mem_cons_of_mem _ h1)

/-- Cuisine classification only ever answers one of the seven cuisines. -/
theorem classifyCuisine_mem (a b d c : String) (h : classifyCuisine a b d = some c) :
    c ∈ ["mediterranean", "asian", "latin", "indian", "italian", "american",
         "middle_eastern"] := by
  simp only [classifyCuisine] at h
  split at h
  · rename_i q hq
    split at h
    · simp only [Option.some.injEq] at h
      rcases pickBest_mem _ _ _ hq with h1 | h1
      · simp at h1
      · rw [List.mem_map] at h1
        obtain ⟨p, hp, hpq⟩ := h1
        simp only [CUISINE_PATTERNS, List.mem_cons, List.not_mem_nil, or_false] at hp
        subst h
        rcases hp with rfl | rfl | rfl | rfl | rfl | rfl | rfl <;> rw [← hpq] <;> simp
    · exact absurd h (by simp)
  · exact absurd h (by simp)

/-- Cooking-method extraction only ever produces the eleven method names. -/
theorem extractCookingMethods_mem (instr m : String)
    (h : m ∈ extractCookingMethods instr) :
    m ∈ ["baking", "roasting", "grilling", "sauteing", "steaming", "boiling",
         "simmering", "stir-frying", "slow-cooking", "pressure-cooking",
         "air-frying"] := by
  have h2 := List.mem_of_mem_take h
  rw [List.mem_map] at h2
  obtain ⟨p, hp, rfl⟩ := h2
  have hmem := List.mem_of_mem_filter hp
  simp only [cookingVerbs, List.mem_cons, List.not_mem_nil, or_false] at hmem
  rcases hmem with rfl | rfl | rfl | rfl | rfl | rfl | rfl | rfl | rfl | rfl | rfl <;> simp

/-- Time categorization only ever answers one of its four buckets. -/
theorem categorizePrepTime_mem (t : ℕ) (s : String) (h : categorizePrepTime t = some s) :
    s ∈ ["15-min-meals", "30-min-meals", "quick-meals", "slow-cooking"] := by
  simp only [categorizePrepTime] at h
  split_ifs at h <;> simp only [Option.some.injEq] at h <;> simp [← h]

/-- The keto tag appears among the special-diet tags exactly when the keto
branch fires: carbs (defaulting to 999 when absent!) below 10 and fat above
15. -/
theorem keto_mem_diets (r : Recipe) :
    "keto-friendly" ∈ identifySpecialDiets r ↔
      (r.nutrition.carbs.getD 999 < 10 ∧ 15 < r.nutrition.fat.getD 0) := by
  by_cases hk : r.nutrition.carbs.getD 999 < 10 ∧ 15 < r.nutrition.fat.getD 0
  · simp only [identifySpecialDiets, if_pos hk, List.mem_append]
    simp [hk]
  · simp only [identifySpecialDiets, if_neg hk, List.mem_append]
    simp only [iff_false_intro hk, iff_false]
    rintro (h1 | h1) <;> revert h1 <;> split_ifs <;> simp

/-- C9 counterexample: a candidate whose nutrition omits `carbs` and whose
fat is 20 g does *not* get the keto-friendly tag — the keto check reads the
missing carbs as 999, not 0. -/
theorem keto_under_defaulting_cex :
    rKeto.nutrition.carbs = none ∧ 15 < rKeto.nutrition.fat.getD 0 ∧
    "keto-friendly" ∉ (enrichRecipe rKeto).tagsD := by decide

/-- C9 amended: for a candidate not already tagged keto-friendly,
enrichment adds the keto-friendly tag exactly when carbs — read with the
source's 999 default, so never when the key is absent — is below 10 and fat
exceeds 15. -/
theorem keto_under_defaulting_amended (r : Recipe) (h : "keto-friendly" ∉ r.tagsD) :
    ("keto-friendly" ∈ (enrichRecipe r).tagsD ↔
      (r.nutrition.carbs.getD 999 < 10 ∧ 15 < r.nutrition.fat.getD 0)) := by
  have htags : (enrichRecipe r).tagsD = ((enrichCore r).2).dedup := rfl
  rw [htags, List.mem_dedup]
  simp only [enrichCore, List.mem_append]
  constructor
  · rintro ((((((((ht | hs) | hcui) | htri) | hb) | hf) | hm) | htc) | hd)
    · exact absurd ht h
    · have := classifySeasonal_mem _ _ hs
      simp at this
    · revert hcui
      cases hcls : classifyCuisine (ingredientsText r.ingredients) (lowerStr r.title)
          (lowerStr r.description) with
      | none => simp
      | some c =>
        intro hcui
        simp only [List.mem_singleton] at hcui
        have := classifyCuisine_mem _ _ _ _ hcls
        fin_cases this <;> exact absurd hcui (by decide)
    · have := assessTrimester_tags_mem _ _ htri
      simp at this
    · revert hb
      split
      · intro hb
        simp only [List.mem_singleton] at hb
        exact absurd hb (by decide)
      · simp
    · revert hf
      split
      · intro hf
        simp only [List.mem_singleton] at hf
        exact absurd hf (by decide)
      · simp
    · rw [List.mem_map] at hm
      obtain ⟨m, hmm, heq⟩ := hm
      have := extractCookingMethods_mem _ _ hmm
      fin_cases this <;> exact absurd heq (by decide)
    · rcases hTC : categorizePrepTime (r.prepTime + r.cookTime) with _ | s
      · rw [hTC] at htc
        simp at htc
      · rw [hTC] at htc
        simp only [Option.toList_some, List.mem_singleton] at htc
        have := categorizePrepTime_mem _ _ hTC
        rw [← htc] at this
        simp at this
    · simpa using (keto_mem_diets _).mp hd
  · intro hc
    exact Or.inr ((keto_mem_diets _).mpr (by simpa using hc))

/-- C9 amended witness: the carbs-less demo candidate, whose keto condition
is false. -/
theorem keto_under_defaulting_amended_witness :
    "keto-friendly" ∈ (enrichRecipe rKeto).tagsD ↔
      (rKeto.nutrition.carbs.getD 999 < 10 ∧ 15 < rKeto.nutrition.fat.getD 0) :=
  keto_under_defaulting_amended rKeto (by decide)
